import Mathlib

/-!
Verification of the Cine window controller (src/window.py, src/options.py).

The Python code is a GTK media-player shell driving an mpv handle.  The
definitions below are a shallow embedding of the pure logic of its handlers:
mpv property reads become function arguments, widget/property writes become
fields of explicit result states, and Python integer arithmetic becomes `Int`
arithmetic (Python `%` with a positive modulus agrees with `Int.emod`).
-/

namespace Cine

/-! ### Playlist navigation sensitivity (`_update_playlist_nav_sensitivity`)

The handler reads `playlist-count` and `playlist-pos` (coerced with `or 0`,
so a missing value becomes 0), `loop_playlist != False` and the shuffle
toggle, and computes the sensitivity of the previous/next buttons. -/

/-- Embeds `has_multiple = count > 1`. -/
def hasMultiple (count : Int) : Bool :=
  decide (1 < count)

/-- Embeds `can_always_nav = has_multiple and (shuffle_enabled or loop_list_enabled)`. -/
def canAlwaysNav (count : Int) (loopList shuffle : Bool) : Bool :=
  hasMultiple count && (shuffle || loopList)

/-- Embeds `can_go_prev = can_always_nav or (has_multiple and pos > 0)`. -/
def canGoPrev (count pos : Int) (loopList shuffle : Bool) : Bool :=
  canAlwaysNav count loopList shuffle || (hasMultiple count && decide (0 < pos))

/-- Embeds `can_go_next = can_always_nav or (has_multiple and pos < count - 1)`. -/
def canGoNext (count pos : Int) (loopList shuffle : Bool) : Bool :=
  canAlwaysNav count loopList shuffle || (hasMultiple count && decide (pos < count - 1))

/-- Embeds the Python `or 0` coercion applied to `playlist_count`/`playlist_pos`
(`None` and `0` both map to `0`). -/
def pyIntOr0 (v : Option Int) : Int :=
  v.getD 0

/-- The spec's enablement formula for the previous button, written from the
spec's words: enabled if (loop-playlist or shuffle active) and the playlist has
more than one entry, or if the position is not at the start. -/
def specPrevEnabled (count pos : Int) (loopList shuffle : Bool) : Bool :=
  ((loopList || shuffle) && decide (1 < count)) || decide (0 < pos)

/-- The spec's enablement formula for the next button, written from the
spec's words: enabled if (loop-playlist or shuffle active) and the playlist has
more than one entry, or if the position is not at the end. -/
def specNextEnabled (count pos : Int) (loopList shuffle : Bool) : Bool :=
  ((loopList || shuffle) && decide (1 < count)) || decide (pos < count - 1)

/-! ### Rotation (`_on_rotate_right` / `_on_rotate_left`)

`window.py` reads `video-rotate` and writes `(curr + 90) % 360` resp.
`(curr - 90) % 360`; `options.py` additionally coerces a missing value with
`or 0`.  Python `%` with modulus 360 agrees with `Int.emod`. -/

/-- Embeds `new_val = (curr + 90) % 360` from `window.py` `_on_rotate_right`. -/
def rotateRight (curr : Int) : Int :=
  (curr + 90) % 360

/-- Embeds `new_val = (curr - 90) % 360` from `window.py` `_on_rotate_left`. -/
def rotateLeft (curr : Int) : Int :=
  (curr - 90) % 360

/-- Embeds `options.py` `_on_rotate_right`: `(self.win.mpv["video-rotate"] or 0 + ...)`,
i.e. the current value coerced with `or 0` before the wrap. -/
def rotateRightOpt (curr : Option Int) : Int :=
  rotateRight (pyIntOr0 curr)

/-- Embeds `options.py` `_on_rotate_left`. -/
def rotateLeftOpt (curr : Option Int) : Int :=
  rotateLeft (pyIntOr0 curr)

/-! ### Aspect-ratio cycling (`_on_aspect_next` / `_on_aspect_prev`)

`window.py` keeps `self.aspect_index` (a Python `int`) and on "next" sets
`self.aspect_index = (self.aspect_index + 1) % len(ASPECT_RATIOS)`, then
applies `ASPECT_RATIOS[self.aspect_index]` as `video-aspect-override`.
`ASPECT_RATIOS` itself lives in `utils.py` (not under src/), so the list is
kept abstract here; only its length enters the arithmetic. -/

/-- Embeds `(self.aspect_index + 1) % len(ASPECT_RATIOS)` (Python `%` on a
positive modulus is `Int.emod`). -/
def aspectNext (n : Nat) (i : Int) : Int :=
  (i + 1) % (n : Int)

/-- Embeds `(self.aspect_index - 1) % len(ASPECT_RATIOS)`. -/
def aspectPrev (n : Nat) (i : Int) : Int :=
  (i - 1) % (n : Int)

/-- Embeds `val = ASPECT_RATIOS[self.aspect_index]`, the applied
`video-aspect-override` value. -/
def appliedAspect (ratios : List String) (i : Int) : Option String :=
  ratios[i.toNat]?

/-! ### Numeric adjustments (`_on_zoom_inc` / `_on_zoom_dec` and friends)

Each increment handler dispatches `mpv.command("add", <property>, delta)` with
a fixed `delta`; the mirrored value is the engine-side number the command adds
to.  We embed the `add` command as exact addition on the mirrored value. -/

/-- Embeds the mpv `add <property> <delta>` command on the mirrored value. -/
def addStep (delta v : ℚ) : ℚ :=
  v + delta

/-- Embeds `_on_zoom_inc`: `self.mpv.command("add", "video-zoom", 0.1)`. -/
def zoomInc : ℚ → ℚ :=
  addStep (1 / 10)

/-- Embeds `_on_zoom_dec`: `self.mpv.command("add", "video-zoom", -0.1)`. -/
def zoomDec : ℚ → ℚ :=
  addStep (-(1 / 10))

/-! ### Property bridge (`on_volume_change`, `_update_progress`)

`on_volume_change` applies an mpv `volume` notification to the volume slider:
it calls `handler_block` on the slider's `value-changed` handler, sets the
adjustment value, then `handler_unblock`.  `_update_progress` does the same to
the progress adjustment via `handler_block_by_func`/`handler_unblock_by_func`.
The slider handler, when it runs, writes the value back to the player
(`setattr(self.mpv, "volume", ...)` resp. `self.mpv.time_pos = ...`).

GTK semantics embedded here: `set_value` emits `value-changed` only when the
value actually changes, and a blocked handler does not run. -/

/-- State of one mirrored widget: its current value, the block count of its
`value-changed` handler, and the outbound property writes dispatched so far. -/
structure BridgeState where
  widgetValue : ℚ
  blockCount : Nat
  outbound : List ℚ

/-- Embeds `Gtk.Adjustment.set_value`: on an actual change, the
`value-changed` handler runs unless blocked, appending an outbound player
write of the new value. -/
def setValue (s : BridgeState) (v : ℚ) : BridgeState :=
  if v = s.widgetValue then s
  else
    { widgetValue := v
      blockCount := s.blockCount
      outbound := if s.blockCount = 0 then s.outbound ++ [v] else s.outbound }

/-- Embeds `handler_block` (GObject block counts nest). -/
def handlerBlock (s : BridgeState) : BridgeState :=
  { s with blockCount := s.blockCount + 1 }

/-- Embeds `handler_unblock`. -/
def handlerUnblock (s : BridgeState) : BridgeState :=
  { s with blockCount := s.blockCount - 1 }

/-- Embeds the body of `on_volume_change`'s marshaled update: block the
slider's handler, apply the notified value, unblock. -/
def onVolumeChange (s : BridgeState) (v : ℚ) : BridgeState :=
  handlerUnblock (setValue (handlerBlock s) v)

/-- Embeds `_update_progress` applied to the progress adjustment: block
`_on_progress_adjusted`, set the value, unblock. -/
def updateProgress (s : BridgeState) (t : ℚ) : BridgeState :=
  handlerUnblock (setValue (handlerBlock s) t)

/-! ### End-file handling (`on_end_file`)

The `end-file` event callback always hides the spinner; when the reason is
`error` it additionally adds one "File Error: ..." toast and commands the
player to stop. -/

/-- UI/player effects issued by the `end-file` callback. -/
inductive UiAction where
  | hideSpinner
  | addToast (msg : String)
  | stopPlayer
deriving DecidableEq

/-- Embeds `on_end_file`: hide the spinner; if `reason == "error"`, toast the
file error and `self.mpv.stop()`. -/
def onEndFile (reason : String) (fileError : String) : List UiAction :=
  [UiAction.hideSpinner] ++
    (if reason = "error" then
      [UiAction.addToast ("File Error: " ++ fileError), UiAction.stopPlayer]
    else [])

/-- Number of toasts among the issued effects. -/
def countToasts (acts : List UiAction) : Nat :=
  (acts.filter fun a => match a with | UiAction.addToast _ => true | _ => false).length

/-- Number of stop commands among the issued effects. -/
def countStops (acts : List UiAction) : Nat :=
  (acts.filter fun a => match a with | UiAction.stopPlayer => true | _ => false).length

/-! ### Loop-mode toggles (`_on_loop_playlist_toggled`, `_on_loop_file_toggled`)

Activating one loop mode writes its property to `"inf"`, writes the other
property to `"no"` and deactivates the other toggle button; deactivating a
mode writes its own property to `"no"`.  `set_active(False)` on the other
button re-enters that button's own toggled handler when it was active, whose
inactive branch writes that property to `"no"` again; this cascade is inlined
one level below (it is the only level that fires). -/

/-- Loop-related window state: the two mpv loop properties and the two toggle
buttons. -/
structure LoopState where
  loopFile : String
  loopPlaylist : String
  loopFileBtnActive : Bool
  loopPlaylistBtnActive : Bool

/-- Embeds `_on_loop_playlist_toggled` (reading the playlist-loop button's
current active state), including the re-entrant `_on_loop_file_toggled` run
triggered by `loop_file_toggle_button.set_active(False)`. -/
def onLoopPlaylistToggled (s : LoopState) : LoopState :=
  if s.loopPlaylistBtnActive then
    let s1 := { s with loopPlaylist := "inf", loopFile := "no" }
    if s1.loopFileBtnActive then
      { s1 with loopFileBtnActive := false, loopFile := "no" }
    else s1
  else
    { s with loopPlaylist := "no" }

/-- Embeds `_on_loop_file_toggled`, including the re-entrant
`_on_loop_playlist_toggled` run triggered by
`playlist_loop_toggle_button.props.active = False`. -/
def onLoopFileToggled (s : LoopState) : LoopState :=
  if s.loopFileBtnActive then
    let s1 := { s with loopFile := "inf", loopPlaylist := "no" }
    if s1.loopPlaylistBtnActive then
      { s1 with loopPlaylistBtnActive := false, loopPlaylist := "no" }
    else s1
  else
    { s with loopFile := "no" }

/-- A loop property counts as enabled when it is not `"no"`. -/
def loopEnabled (v : String) : Bool :=
  v ≠ "no"

/-! ### Sentinel coercion in property observers

`on_time_change` guards with Python truthiness (`if value:`) and only then
applies the value to the progress UI; `on_sid_change`/`on_aid_change` coerce
with `value if isinstance(value, int) else 0` (note Python `bool` is an
`int`); `options.py` `_on_active` coerces missing numeric values with
`or 0`. -/

/-- A dynamically typed value delivered by an mpv property notification. -/
inductive PyVal where
  | pynone
  | pyint (n : Int)
  | pyfloat (q : ℚ)
  | pystr (s : String)
  | pybool (b : Bool)
deriving DecidableEq

/-- Python truthiness of a notification value. -/
def pyTruthy : PyVal → Bool
  | PyVal.pynone => false
  | PyVal.pyint n => decide (n ≠ 0)
  | PyVal.pyfloat q => decide (q ≠ 0)
  | PyVal.pystr s => decide (s ≠ "")
  | PyVal.pybool b => b

/-- Embeds `on_time_change`: the update applied to the progress UI (`none`
means no update is dispatched at all). -/
def onTimeChange (value : PyVal) : Option PyVal :=
  if pyTruthy value then some value else none

/-- The claim's reading of `on_time_change`, written from the spec's words:
a value arriving as the unset sentinel is coerced to the default 0 and
applied. -/
def specTimeUpdate (value : PyVal) : Option PyVal :=
  some (if value = PyVal.pynone then PyVal.pyfloat 0 else value)

/-- Embeds `on_sid_change`: the state written to the `select-subtitle`
action (`val = value if isinstance(value, int) else 0`; a Python `bool` is an
`int` and coerces to 0/1 in the `i`-typed variant). -/
def onSidChange (value : PyVal) : Int :=
  match value with
  | PyVal.pyint n => n
  | PyVal.pybool b => if b then 1 else 0
  | _ => 0

/-- Embeds `on_aid_change`: the state written to the `select-audio` action. -/
def onAidChange (value : PyVal) : Int :=
  match value with
  | PyVal.pyint n => n
  | PyVal.pybool b => if b then 1 else 0
  | _ => 0

/-- Embeds the `or 0` coercion of optional numeric mpv values in
`options.py` `_on_active` (e.g. `float(self.win.mpv["video-zoom"] or 0)`;
Python `x or 0` maps both `None` and `0` to `0`, so `getD 0` is exact). -/
def pyNumOr0 (v : Option ℚ) : ℚ :=
  v.getD 0

/-- Embeds the speed read in `options.py` `_on_active`:
`float(self.win.mpv["speed"] or 1.0)`.  Python `x or 1.0` yields `1.0` for
`None` and for a falsy `0`, and the value itself otherwise. -/
def pySpeedOr1 (v : Option ℚ) : ℚ :=
  match v with
  | none => 1
  | some q => if q = 0 then 1 else q

/-! ### Default window sizing (`_set_window_size`)

For positive inputs the function clamps a `(width, height)` pair to the
1056×594 default window, recomputing the other dimension from the original
aspect ratio with `int(...)` truncation; `aspect_ratio = width / height` is a
Python float, embedded here as exact rational arithmetic, whose truncation on
positive values is `Nat` division. -/

/-- Embeds `_set_window_size`; `none` means the window size is left
unchanged. -/
def setWindowSize (width height : Int) : Option (Nat × Nat) :=
  if width ≤ 0 ∨ height ≤ 0 then none
  else
    let w := width.toNat
    let h := height.toNat
    let p1 : Nat × Nat := if 1056 < w then (1056, 1056 * h / w) else (w, h)
    let p2 : Nat × Nat := if 594 < p1.2 then (594 * w / h, 594) else p1
    some p2

/-! ### Auto-hide timer (`_hide_ui_timeout`, `_hide_ui`, `_on_mouse_motion`,
`_on_key_pressed`)

`_hide_ui_timeout(s=2)` first removes the previously recorded GLib source (if
any) and then schedules `_hide_ui` after `s` seconds, recording the new source
id.  `_hide_ui` clears the recorded id, hides the chrome unless a hover/menu
condition holds, and returns `None`, so GLib removes the fired source.
`_on_mouse_motion` de-duplicates against the previous pointer position, then
shows the UI and re-arms with the default 2 seconds; the Tab key branch of
`_on_key_pressed` re-arms with 3 seconds. -/

/-- Window state relevant to the auto-hide timer: the pending `_hide_ui` GLib
sources as (source id, timeout seconds) pairs, the id counter GLib draws fresh
source ids from, the recorded `_hide_timeout_id`, the chrome visibility, and
the last pointer position. -/
structure HideState where
  pendingHide : List (Nat × Nat)
  nextSourceId : Nat
  hideTimeoutId : Option Nat
  uiRevealed : Bool
  prevMotionXY : Int × Int

/-- Embeds `_hide_ui_timeout`: `GLib.source_remove` on the recorded id when
one is set, then `GLib.timeout_add_seconds(s, self._hide_ui)`, recording the
fresh source id. -/
def hideUiTimeout (secs : Nat) (s : HideState) : HideState :=
  let s1 :=
    match s.hideTimeoutId with
    | some i => { s with pendingHide := s.pendingHide.filter (fun p => p.1 != i) }
    | none => s
  { s1 with
    pendingHide := s1.pendingHide ++ [(s1.nextSourceId, secs)]
    hideTimeoutId := some s1.nextSourceId
    nextSourceId := s1.nextSourceId + 1 }

/-- Embeds GLib dispatching a pending `_hide_ui` source `i`: the callback
clears the recorded id, hides the chrome unless a hover/active condition
holds, and its `None` return removes the source. -/
def fireHide (i : Nat) (activeOrHover : Bool) (s : HideState) : HideState :=
  if s.pendingHide.any (fun p => p.1 == i) then
    { s with
      pendingHide := s.pendingHide.filter (fun p => p.1 != i)
      hideTimeoutId := none
      uiRevealed := if activeOrHover then s.uiRevealed else false }
  else s

/-- Embeds `_on_mouse_motion`: ignore a repeat of the previous position,
otherwise record it, show the UI and re-arm the hide timer with the default
2 seconds. -/
def onMouseMotion (x y : Int) (s : HideState) : HideState :=
  if (x, y) = s.prevMotionXY then s
  else hideUiTimeout 2 { s with prevMotionXY := (x, y), uiRevealed := true }

/-- Embeds the Tab branch of `_on_key_pressed`: reveal the UI and re-arm with
`s=3`. -/
def onKeyPressedTab (s : HideState) : HideState :=
  hideUiTimeout 3 { s with uiRevealed := true }

/-- The auto-hide invariant: at most one `_hide_ui` source is pending, and any
pending source is the recorded one. -/
def HideInv (s : HideState) : Prop :=
  s.pendingHide.length ≤ 1 ∧ ∀ p ∈ s.pendingHide, s.hideTimeoutId = some p.1

/-! ## Theorems -/

/-- C1: for every valid playlist state (`0 ≤ pos`, and `pos < count` unless the
playlist is empty and `pos = 0`), `_update_playlist_nav_sensitivity` enables the
previous/next buttons exactly per the spec formula; in particular with
`count = 1` both buttons are disabled regardless of loop/shuffle, and with
`count = 3`, shuffle on, `pos = 0`, both are enabled. -/
theorem nav_sensitivity_matches_spec (count pos : Int) (loopList shuffle : Bool)
    (hpos : 0 ≤ pos) (hvalid : pos < count ∨ pos = 0) :
    (canGoPrev count pos loopList shuffle = specPrevEnabled count pos loopList shuffle ∧
      canGoNext count pos loopList shuffle = specNextEnabled count pos loopList shuffle) ∧
    (canGoPrev 1 0 loopList shuffle = false ∧ canGoNext 1 0 loopList shuffle = false) ∧
    (canGoPrev 3 0 loopList true = true ∧ canGoNext 3 0 loopList true = true) := by
  have hpc : 0 < pos → 1 < count := by rcases hvalid with h | h <;> omega
  have hnc : pos < count - 1 → 1 < count := by omega
  refine ⟨⟨?_, ?_⟩, ?_, ?_⟩
  · simp only [canGoPrev, specPrevEnabled, canAlwaysNav, hasMultiple]
    rw [Bool.eq_iff_iff]
    simp only [Bool.or_eq_true, Bool.and_eq_true, decide_eq_true_eq]
    tauto
  · simp only [canGoNext, specNextEnabled, canAlwaysNav, hasMultiple]
    rw [Bool.eq_iff_iff]
    simp only [Bool.or_eq_true, Bool.and_eq_true, decide_eq_true_eq]
    tauto
  · cases loopList <;> cases shuffle <;> decide
  · cases loopList <;> decide

/-- Witness for C1 at `count = 3`, `pos = 1`, loop on, shuffle off. -/
theorem nav_sensitivity_matches_spec_witness :
    (canGoPrev 3 1 true false = specPrevEnabled 3 1 true false ∧
      canGoNext 3 1 true false = specNextEnabled 3 1 true false) ∧
    (canGoPrev 1 0 true false = false ∧ canGoNext 1 0 true false = false) ∧
    (canGoPrev 3 0 true true = true ∧ canGoNext 3 0 true true = true) :=
  nav_sensitivity_matches_spec 3 1 true false (by decide) (Or.inl (by decide))

/-- C4: rotation wraps modulo 360 in both directions: the result is always in
`[0, 360)`, one rotate right from 270 yields 0 (not 360), one rotate left from
0 yields 270, and the `options.py` variants coerce a missing current value to
0 before wrapping. -/
theorem rotate_wraps_mod_360 (curr : Int) :
    (0 ≤ rotateRight curr ∧ rotateRight curr < 360) ∧
    (0 ≤ rotateLeft curr ∧ rotateLeft curr < 360) ∧
    rotateRight curr = (curr + 90) % 360 ∧
    rotateLeft curr = (curr - 90) % 360 ∧
    (rotateRight 270 = 0 ∧ rotateLeft 0 = 270) ∧
    (rotateRightOpt none = 90 ∧ rotateLeftOpt none = 270) := by
  refine ⟨⟨?_, ?_⟩, ⟨?_, ?_⟩, rfl, rfl, by decide, by decide⟩
  · exact Int.emod_nonneg _ (by decide)
  · exact Int.emod_lt_of_pos _ (by decide)
  · exact Int.emod_nonneg _ (by decide)
  · exact Int.emod_lt_of_pos _ (by decide)

/-- Iterating `aspectNext` from an in-range index advances the index by the
iteration count, modulo the list length. -/
theorem aspectNext_iterate (n : Nat) (hn : 0 < n) :
    ∀ (k : Nat) (i : Int), 0 ≤ i → i < n → (aspectNext n)^[k] i = (i + k) % n := by
  intro k
  induction k with
  | zero =>
    intro i h0 h1
    simpa using (Int.emod_eq_of_lt h0 h1).symm
  | succ k ih =>
    intro i h0 h1
    rw [Function.iterate_succ_apply]
    have hne : (n : Int) ≠ 0 := by exact_mod_cast hn.ne'
    have hnpos : (0 : Int) < n := by exact_mod_cast hn
    have h3 : 0 ≤ (i + 1) % (n : Int) := Int.emod_nonneg _ hne
    have h4 : (i + 1) % (n : Int) < n := Int.emod_lt_of_pos _ hnpos
    have : (aspectNext n)^[k] (aspectNext n i) = ((i + 1) % (n : Int) + k) % n :=
      ih ((i + 1) % (n : Int)) h3 h4
    rw [this, Int.emod_add_emod]
    push_cast
    ring_nf

/-- C5: aspect-ratio cycling is a closed loop: from any in-range index,
applying "next" `N` times, where `N` is the list length, returns both the
index and the applied `video-aspect-override` value to the original, and one
"next" followed by one "prev" is the identity on the index. -/
theorem aspect_cycle_closed (ratios : List String) (i : Int)
    (h0 : 0 ≤ i) (h1 : i < ratios.length) :
    (aspectNext ratios.length)^[ratios.length] i = i ∧
    aspectPrev ratios.length (aspectNext ratios.length i) = i ∧
    appliedAspect ratios ((aspectNext ratios.length)^[ratios.length] i) =
      appliedAspect ratios i := by
  have hn : 0 < ratios.length := by omega
  have hiter := aspectNext_iterate ratios.length hn ratios.length i h0 h1
  have hid : (i + (ratios.length : Int)) % (ratios.length : Int) = i := by
    rw [Int.add_emod_self]
    exact Int.emod_eq_of_lt h0 h1
  have hprev : aspectPrev ratios.length (aspectNext ratios.length i) = i := by
    show ((i + 1) % (ratios.length : Int) - 1) % (ratios.length : Int) = i
    rw [sub_eq_add_neg, Int.emod_add_emod]
    have : i + 1 + -1 = i := by ring
    rw [this]
    exact Int.emod_eq_of_lt h0 h1
  exact ⟨by rw [hiter, hid], hprev, by rw [hiter, hid]⟩

/-- Witness for C5 on the list `["-1", "16:9", "4:3"]` at index 1. -/
theorem aspect_cycle_closed_witness :
    (aspectNext (List.length ["-1", "16:9", "4:3"]))^[List.length
      ["-1", "16:9", "4:3"]] 1 = 1 ∧
    aspectPrev (List.length ["-1", "16:9", "4:3"])
      (aspectNext (List.length ["-1", "16:9", "4:3"]) 1) = 1 ∧
    appliedAspect ["-1", "16:9", "4:3"]
        ((aspectNext (List.length ["-1", "16:9", "4:3"]))^[List.length
          ["-1", "16:9", "4:3"]] 1) =
      appliedAspect ["-1", "16:9", "4:3"] 1 :=
  aspect_cycle_closed ["-1", "16:9", "4:3"] 1 (by decide) (by decide)

/-- C6: for every fixed step and every starting mirrored value, applying
"increment" `k` times then "decrement" `k` times returns the mirrored value to
its starting value; in particular for zoom (step 0.1), and starting at 0 three
increments followed by three decrements yield 0 again. -/
theorem inc_dec_roundtrip (delta v : ℚ) (k : Nat) :
    (addStep (-delta))^[k] ((addStep delta)^[k] v) = v ∧
    zoomDec^[k] (zoomInc^[k] v) = v ∧
    zoomDec^[3] (zoomInc^[3] 0) = 0 := by
  have hinv : ∀ d : ℚ, Function.LeftInverse (addStep (-d)) (addStep d) := by
    intro d x
    show x + d + -d = x
    ring
  exact ⟨(hinv delta).iterate k v, (hinv (1 / 10)).iterate k v,
    (hinv (1 / 10)).iterate 3 0⟩

/-- C2: applying a mirrored property notification to its widget (volume to the
volume slider, time-pos to the progress adjustment) blocks the widget's own
value-changed handler for the duration of the write and restores it
afterwards, so no outbound player write is produced; moreover setting a
mirrored property to its current value never produces a redundant outbound
command, even unblocked. -/
theorem property_bridge_no_feedback (s : BridgeState) (v t : ℚ) :
    ((onVolumeChange s v).outbound = s.outbound ∧
      (onVolumeChange s v).blockCount = s.blockCount ∧
      (onVolumeChange s v).widgetValue = v) ∧
    ((updateProgress s t).outbound = s.outbound ∧
      (updateProgress s t).blockCount = s.blockCount ∧
      (updateProgress s t).widgetValue = t) ∧
    setValue s s.widgetValue = s := by
  obtain ⟨w, b, out⟩ := s
  refine ⟨?_, ?_, ?_⟩
  · by_cases h : v = w <;>
      simp [onVolumeChange, setValue, handlerBlock, handlerUnblock, h]
  · by_cases h : t = w <;>
      simp [updateProgress, setValue, handlerBlock, handlerUnblock, h]
  · simp [setValue]

/-- C8: an end-file event with reason "error" hides the spinner, surfaces the
file error exactly once as a toast, and issues exactly one stop command; any
other reason hides the spinner and issues neither a toast nor a stop. -/
theorem end_file_error_handling (reason err : String) :
    UiAction.hideSpinner ∈ onEndFile reason err ∧
    (reason = "error" →
      countToasts (onEndFile reason err) = 1 ∧
        countStops (onEndFile reason err) = 1 ∧
        UiAction.addToast ("File Error: " ++ err) ∈ onEndFile reason err) ∧
    (reason ≠ "error" →
      countToasts (onEndFile reason err) = 0 ∧
        countStops (onEndFile reason err) = 0) := by
  by_cases h : reason = "error" <;>
    simp [onEndFile, countToasts, countStops, h]

/-- Witness for C8 at reason "error" and at reason "eof". -/
theorem end_file_error_handling_witness :
    countToasts (onEndFile "error" "boom") = 1 ∧
    countStops (onEndFile "error" "boom") = 1 ∧
    countToasts (onEndFile "eof" "x") = 0 ∧
    countStops (onEndFile "eof" "x") = 0 := by
  have h1 := (end_file_error_handling "error" "boom").2.1 rfl
  have h2 := (end_file_error_handling "eof" "x").2.2 (by decide)
  exact ⟨h1.1, h1.2.1, h2.1, h2.2⟩

/-- C9: after either loop-toggle handler runs, at most one of loop-file and
loop-playlist is enabled; activating loop-playlist sets loop-file to "no" and
deactivates the loop-file button (and symmetrically for loop-file). -/
theorem loop_modes_mutually_exclusive (s : LoopState) :
    (¬(loopEnabled (onLoopPlaylistToggled s).loopFile = true ∧
        loopEnabled (onLoopPlaylistToggled s).loopPlaylist = true)) ∧
    (¬(loopEnabled (onLoopFileToggled s).loopFile = true ∧
        loopEnabled (onLoopFileToggled s).loopPlaylist = true)) ∧
    ((onLoopPlaylistToggled { s with loopPlaylistBtnActive := true }).loopFile = "no" ∧
      (onLoopPlaylistToggled { s with loopPlaylistBtnActive := true }).loopFileBtnActive
        = false ∧
      (onLoopPlaylistToggled { s with loopPlaylistBtnActive := true }).loopPlaylist
        = "inf") ∧
    ((onLoopFileToggled { s with loopFileBtnActive := true }).loopPlaylist = "no" ∧
      (onLoopFileToggled { s with loopFileBtnActive := true }).loopPlaylistBtnActive
        = false ∧
      (onLoopFileToggled { s with loopFileBtnActive := true }).loopFile = "inf") := by
  obtain ⟨lf, lp, fb, pb⟩ := s
  cases pb <;> cases fb <;>
    simp [onLoopPlaylistToggled, onLoopFileToggled, loopEnabled]

/-- C7 counterexample: a time position arriving as the `None` sentinel is not
coerced to 0 and applied; `on_time_change` dispatches no update at all. -/
theorem time_change_skips_none :
    onTimeChange PyVal.pynone = Option.none ∧
    onTimeChange PyVal.pynone ≠ specTimeUpdate PyVal.pynone := by
  decide

/-- C7 as amended: a falsy (missing or zero) time position produces no
progress update, while a truthy one is applied unchanged; a missing or
non-integer subtitle/audio track id sets the corresponding action state to 0;
missing numeric values read when the options popover opens are coerced to
their documented defaults: 0 for the video-adjust and delay values, 1.0 for
speed. -/
theorem sentinel_coercion_amended (value : PyVal) :
    onTimeChange PyVal.pynone = Option.none ∧
    onTimeChange (PyVal.pyfloat 0) = Option.none ∧
    (pyTruthy value = true → onTimeChange value = some value) ∧
    onSidChange PyVal.pynone = 0 ∧
    onSidChange (PyVal.pystr "no") = 0 ∧
    onAidChange PyVal.pynone = 0 ∧
    onAidChange (PyVal.pystr "no") = 0 ∧
    pyNumOr0 Option.none = 0 ∧
    pySpeedOr1 Option.none = 1 := by
  refine ⟨by decide, by decide, ?_, rfl, rfl, rfl, rfl, rfl, rfl⟩
  intro h
  simp [onTimeChange, h]

/-- Witness for C7's amended theorem at a truthy time position. -/
theorem sentinel_coercion_amended_witness :
    pyTruthy (PyVal.pyint 5) = true ∧
    onTimeChange (PyVal.pyint 5) = some (PyVal.pyint 5) :=
  ⟨by decide, (sentinel_coercion_amended (PyVal.pyint 5)).2.2.1 (by decide)⟩

/-- C10: for positive inputs `_set_window_size` produces a size bounded by
1056×594 that is either the input pair or one of the two aspect-preserving
clamps (truncated from the original aspect ratio), including the case where
the first clamp's recomputed height triggers the second clamp; for any
non-positive input the size is left unchanged. -/
theorem window_size_clamped (width height : Int) :
    (0 < width → 0 < height →
      (setWindowSize width height).isSome = true ∧
      ((setWindowSize width height).getD (0, 0)).1 ≤ 1056 ∧
      ((setWindowSize width height).getD (0, 0)).2 ≤ 594 ∧
      ((setWindowSize width height).getD (0, 0) = (width.toNat, height.toNat) ∨
        (setWindowSize width height).getD (0, 0) =
          (1056, 1056 * height.toNat / width.toNat) ∨
        (setWindowSize width height).getD (0, 0) =
          (594 * width.toNat / height.toNat, 594))) ∧
    (width ≤ 0 ∨ height ≤ 0 → setWindowSize width height = none) := by
  constructor
  · intro hw hh
    have hcond : ¬(width ≤ 0 ∨ height ≤ 0) := by omega
    have hw0 : 0 < width.toNat := by omega
    have hh0 : 0 < height.toNat := by omega
    simp only [setWindowSize, if_neg hcond]
    set w := width.toNat with hwdef
    set h := height.toNat with hhdef
    by_cases h1 : 1056 < w
    · simp only [if_pos h1]
      by_cases h2 : 594 < 1056 * h / w
      · simp only [if_pos h2, Option.isSome_some, Option.getD_some]
        have h595 : 595 * w ≤ 1056 * h := by
          have := (Nat.le_div_iff_mul_le hw0).mp (by omega : 595 ≤ 1056 * h / w)
          omega
        have hbound : 594 * w / h < 1057 := by
          rw [Nat.div_lt_iff_lt_mul hh0]
          omega
        exact ⟨trivial, by omega, by omega, by simp⟩
      · simp only [if_neg h2, Option.isSome_some, Option.getD_some]
        exact ⟨trivial, by omega, by omega, by simp⟩
    · simp only [if_neg h1]
      by_cases h2 : 594 < h
      · simp only [if_pos h2, Option.isSome_some, Option.getD_some]
        have hbound : 594 * w / h < 1057 := by
          rw [Nat.div_lt_iff_lt_mul hh0]
          omega
        exact ⟨trivial, by omega, by omega, by simp⟩
      · simp only [if_neg h2, Option.isSome_some, Option.getD_some]
        exact ⟨trivial, by omega, by omega, by simp⟩
  · intro hcond
    simp only [setWindowSize, if_pos hcond]

/-- Witness for C10 at 1920×1080 (clamped to exactly 1056×594) and at a
non-positive width. -/
theorem window_size_clamped_witness :
    (setWindowSize 1920 1080).isSome = true ∧
    ((setWindowSize 1920 1080).getD (0, 0)).1 ≤ 1056 ∧
    ((setWindowSize 1920 1080).getD (0, 0)).2 ≤ 594 ∧
    setWindowSize (-1) 5 = none := by
  have h := (window_size_clamped 1920 1080).1 (by decide) (by decide)
  exact ⟨h.1, h.2.1, h.2.2.1, (window_size_clamped (-1) 5).2 (by decide)⟩

/-- Re-arming the hide timer under the invariant leaves exactly the fresh
source pending, records its id, and does not touch the chrome visibility. -/
theorem hideUiTimeout_pending (s : HideState) (k : Nat) (hInv : HideInv s) :
    (hideUiTimeout k s).pendingHide = [(s.nextSourceId, k)] ∧
    (hideUiTimeout k s).hideTimeoutId = some s.nextSourceId ∧
    (hideUiTimeout k s).uiRevealed = s.uiRevealed := by
  obtain ⟨hlen, hall⟩ := hInv
  cases hopt : s.hideTimeoutId with
  | none =>
    have hpd : s.pendingHide = [] := by
      cases hpd : s.pendingHide with
      | nil => rfl
      | cons p rest =>
        have hp := hall p (by rw [hpd]; exact List.mem_cons_self p rest)
        rw [hopt] at hp
        exact absurd hp (by simp)
    simp [hideUiTimeout, hopt, hpd]
  | some j =>
    have hempty : s.pendingHide.filter (fun p => p.1 != j) = [] := by
      cases hpd : s.pendingHide with
      | nil => rfl
      | cons p rest =>
        have hr : rest = [] := by
          cases rest with
          | nil => rfl
          | cons q t =>
            rw [hpd] at hlen
            simp only [List.length_cons] at hlen
            omega
        subst hr
        have hp := hall p (by rw [hpd]; exact List.mem_cons_self p [])
        rw [hopt] at hp
        have hpj : p.1 = j := by
          injection hp with h
          omega
        simp [hpj]
    simp [hideUiTimeout, hopt, hempty]

/-- C3: at most one auto-hide source is ever pending: under the invariant,
every re-arm of `_hide_ui_timeout` cancels the previously pending hide and
leaves exactly one fresh source pending; a fired hide removes its source, so
after the timeout elapses the hide fires at most once; pointer motion to a new
position cancels the pending hide and restarts the 2-second default timer
(a repeated position is ignored); the Tab key restarts it with 3 seconds. -/
theorem hide_timer_single_pending (s : HideState) (k i : Nat) (x y : Int)
    (activeOrHover : Bool) (hInv : HideInv s) :
    ((hideUiTimeout k s).pendingHide = [(s.nextSourceId, k)] ∧
      HideInv (hideUiTimeout k s)) ∧
    (HideInv (fireHide i activeOrHover s) ∧
      (s.pendingHide.any (fun p => p.1 == i) = true →
        (fireHide i activeOrHover s).pendingHide = [])) ∧
    ((x, y) ≠ s.prevMotionXY →
      (onMouseMotion x y s).pendingHide = [(s.nextSourceId, 2)] ∧
        (onMouseMotion x y s).uiRevealed = true) ∧
    ((x, y) = s.prevMotionXY → onMouseMotion x y s = s) ∧
    (onKeyPressedTab s).pendingHide = [(s.nextSourceId, 3)] := by
  have hcases : s.pendingHide = [] ∨
      ∃ p, s.pendingHide = [p] ∧ s.hideTimeoutId = some p.1 := by
    obtain ⟨hlen, hall⟩ := hInv
    cases hpd : s.pendingHide with
    | nil => exact Or.inl rfl
    | cons p rest =>
      have hr : rest = [] := by
        cases rest with
        | nil => rfl
        | cons q t =>
          rw [hpd] at hlen
          simp only [List.length_cons] at hlen
          omega
      subst hr
      exact Or.inr ⟨p, rfl, hall p (by rw [hpd]; exact List.mem_cons_self p [])⟩
  refine ⟨⟨(hideUiTimeout_pending s k hInv).1, ?_, ?_⟩, ⟨?_, ?_⟩, ?_, ?_, ?_⟩
  · rw [(hideUiTimeout_pending s k hInv).1]
    simp
  · intro p hp
    rw [(hideUiTimeout_pending s k hInv).1] at hp
    simp at hp
    rw [(hideUiTimeout_pending s k hInv).2.1, hp]
  · rcases hcases with hpd | ⟨p, hpd, hid⟩
    · have heq : fireHide i activeOrHover s = s := by
        simp [fireHide, hpd]
      rw [heq]
      exact hInv
    · by_cases hpe : p.1 = i
      · have hany : s.pendingHide.any (fun q => q.1 == i) = true := by
          simp [hpd, hpe]
        refine ⟨?_, ?_⟩ <;> simp [fireHide, hany, hpd, hpe]
      · have hany : s.pendingHide.any (fun q => q.1 == i) = false := by
          simp [hpd, hpe]
        have heq : fireHide i activeOrHover s = s := by
          simp [fireHide, hany]
        rw [heq]
        exact hInv
  · intro hany
    rcases hcases with hpd | ⟨p, hpd, hid⟩
    · rw [hpd] at hany
      simp at hany
    · have hpe : p.1 = i := by
        rw [hpd] at hany
        simpa using hany
      simp [fireHide, hany, hpd, hpe]
  · intro hne
    have hInv2 : HideInv { s with prevMotionXY := (x, y), uiRevealed := true } :=
      hInv
    obtain ⟨h1, _, h3⟩ :=
      hideUiTimeout_pending { s with prevMotionXY := (x, y), uiRevealed := true }
        2 hInv2
    constructor
    · simpa [onMouseMotion, hne] using h1
    · simpa [onMouseMotion, hne] using h3
  · intro heq
    simp [onMouseMotion, heq]
  · have hInv2 : HideInv { s with uiRevealed := true } := hInv
    simpa [onKeyPressedTab] using
      (hideUiTimeout_pending { s with uiRevealed := true } 3 hInv2).1

/-- Witness for C3 at the initial state (nothing pending, id counter at 1). -/
theorem hide_timer_single_pending_witness :
    (hideUiTimeout 2 (HideState.mk [] 1 Option.none true (0, 0))).pendingHide
      = [(1, 2)] ∧
    (onKeyPressedTab (HideState.mk [] 1 Option.none true (0, 0))).pendingHide
      = [(1, 3)] := by
  have h := hide_timer_single_pending (HideState.mk [] 1 Option.none true (0, 0))
    2 1 5 5 false ⟨by simp, by simp⟩
  exact ⟨h.1.1, h.2.2.2.2⟩

end Cine
